import Mathlib

/-!
Verification of the ImagineIt direct-manipulation transform / alignment /
face-snap subsystem and its undo/redo history engine.

The JavaScript sources under `src/js/` (`faceSnapTool.js`, `history.js`,
`transformTool.js`, `alignTool.js`, `selection.js`) are shallowly embedded
below.  Numbers are embedded as exact rationals (`ℚ`); JavaScript objects
become structures; the mutable module-level `state` becomes an explicit
`GlobalState` value threaded through the operations.  three.js library
calls used by the sources (`Quaternion.setFromUnitVectors`,
`Quaternion.premultiply`, `Vector3.applyQuaternion`, `Box3.setFromObject`,
`Math.sign`, `Math.round`) are embedded from their reference
implementations; `Box3.setFromObject` is modelled on an object whose
geometry is represented by its axis-aligned local bounding box, so the
world box is the componentwise extrema of the eight transformed corners.
-/

namespace ImagineIt

/-- A 3-component vector of exact rationals (three.js `Vector3`). -/
@[ext]
structure Vec3 where
  x : ℚ
  y : ℚ
  z : ℚ
deriving DecidableEq, Repr

/-- A quaternion (three.js `Quaternion`), componentwise rational. -/
@[ext]
structure Quat where
  x : ℚ
  y : ℚ
  z : ℚ
  w : ℚ
deriving DecidableEq, Repr

def vadd (a b : Vec3) : Vec3 := ⟨a.x + b.x, a.y + b.y, a.z + b.z⟩

def vsub (a b : Vec3) : Vec3 := ⟨a.x - b.x, a.y - b.y, a.z - b.z⟩

def vneg (a : Vec3) : Vec3 := ⟨-a.x, -a.y, -a.z⟩

/-- Componentwise (Hadamard) product, used for per-axis scaling. -/
def vhad (a b : Vec3) : Vec3 := ⟨a.x * b.x, a.y * b.y, a.z * b.z⟩

def vmin (a b : Vec3) : Vec3 := ⟨min a.x b.x, min a.y b.y, min a.z b.z⟩

def vmax (a b : Vec3) : Vec3 := ⟨max a.x b.x, max a.y b.y, max a.z b.z⟩

def vdot (a b : Vec3) : ℚ := a.x * b.x + a.y * b.y + a.z * b.z

/-- The identity quaternion. -/
def qid : Quat := ⟨0, 0, 0, 1⟩

/-- three.js `Quaternion.multiplyQuaternions(a, b)`; `a.premultiply(q)` is
`quatMul q a`. -/
def quatMul (a b : Quat) : Quat :=
  ⟨a.x * b.w + a.w * b.x + a.y * b.z - a.z * b.y,
   a.y * b.w + a.w * b.y + a.z * b.x - a.x * b.z,
   a.z * b.w + a.w * b.z + a.x * b.y - a.y * b.x,
   a.w * b.w - a.x * b.x - a.y * b.y - a.z * b.z⟩

/-- three.js `Vector3.applyQuaternion`: `v + 2 w (q × v) + 2 q × (q × v)`,
written exactly as the library computes it. -/
def quatApply (q : Quat) (v : Vec3) : Vec3 :=
  let tx := 2 * (q.y * v.z - q.z * v.y)
  let ty := 2 * (q.z * v.x - q.x * v.z)
  let tz := 2 * (q.x * v.y - q.y * v.x)
  ⟨v.x + q.w * tx + q.y * tz - q.z * ty,
   v.y + q.w * ty + q.z * tx - q.x * tz,
   v.z + q.w * tz + q.x * ty - q.y * tx⟩

/-- Exact rational square root: `some r` with `r * r = q` when it exists. -/
def ratSqrt (q : ℚ) : Option ℚ :=
  if q < 0 then none
  else
    let n := q.num.toNat
    let d := q.den
    let sn := Nat.sqrt n
    let sd := Nat.sqrt d
    if sn * sn = n ∧ sd * sd = d then some ((sn : ℚ) / (sd : ℚ)) else none

/-- three.js `Quaternion.normalize`: divide by the length, or produce the
identity when the length is zero.  The division is exact whenever the
length is rational; when it is irrational the quaternion is returned
unchanged (every theorem below either evaluates it at inputs with a
rational length or is insensitive to the normalization). -/
def quatNormalize (q : Quat) : Quat :=
  let n := q.x * q.x + q.y * q.y + q.z * q.z + q.w * q.w
  if n = 0 then ⟨0, 0, 0, 1⟩
  else
    match ratSqrt n with
    | some l => ⟨q.x / l, q.y / l, q.z / l, q.w / l⟩
    | none => q

/-- `Number.EPSILON` (2⁻⁵²), the threshold three.js uses for the
antiparallel case of `setFromUnitVectors`. -/
def numberEpsilon : ℚ := 1 / 2 ^ 52

/-- three.js `Quaternion.setFromUnitVectors(vFrom, vTo)`: the minimal
rotation carrying the unit vector `vFrom` onto `vTo`. -/
def setFromUnitVectors (vFrom vTo : Vec3) : Quat :=
  let r := vdot vFrom vTo + 1
  if r < numberEpsilon then
    quatNormalize
      (if |vFrom.x| > |vFrom.z| then ⟨-vFrom.y, vFrom.x, 0, 0⟩
       else ⟨0, -vFrom.z, vFrom.y, 0⟩)
  else
    quatNormalize
      ⟨vFrom.y * vTo.z - vFrom.z * vTo.y,
       vFrom.z * vTo.x - vFrom.x * vTo.z,
       vFrom.x * vTo.y - vFrom.y * vTo.x,
       r⟩

/-- `Math.sign`. -/
def jsSign (q : ℚ) : ℚ := if 0 < q then 1 else if q < 0 then -1 else 0

/-- `Math.round(q / s) * s`: JavaScript rounds half toward positive
infinity, which is `round` on `ℚ` (`⌊q + 1/2⌋`). -/
def jsRoundMult (s q : ℚ) : ℚ := (round (q / s) : ℤ) * s

/-- three.js `Vector3.normalize` (divide by length; zero vector
unchanged), exact when the length is rational, identity otherwise — see
`quatNormalize`. -/
def vecNormalize (v : Vec3) : Vec3 :=
  let n := v.x * v.x + v.y * v.y + v.z * v.z
  if n = 0 then v
  else
    match ratSqrt n with
    | some l => ⟨v.x / l, v.y / l, v.z / l⟩
    | none => v

/-- The cached raw geometry data of one mesh (`state.geometryCache`
entries in `history.js`).  The vertex arrays are abstracted to an opaque
tag plus the geometry's local axis-aligned bounding box, which is all the
verified operations inspect. -/
structure GeomData where
  tag : ℕ
  lmin : Vec3
  lmax : Vec3
deriving DecidableEq, Repr

/-- A scene mesh (`THREE.Mesh` as used by the editor): identity (`oid`
models the JavaScript object reference), the content-addressed geometry
identifier (`geometry.userData.uuid`), the geometry itself, material
fields, the transform, and the serialized `userData` name.  The rotation
is kept as a single quaternion; three.js keeps the Euler `rotation` and
the `quaternion` synchronized, so one field stands for both. -/
structure SceneObj where
  oid : ℕ
  geomId : ℕ
  geom : GeomData
  color : ℕ
  transparent : Bool
  opacity : ℚ
  position : Vec3
  rotation : Quat
  scale : Vec3
  name : String
  castShadow : Bool
  receiveShadow : Bool
deriving DecidableEq, Repr

/-- The observable transform of an object: position, rotation, scale. -/
def transformOf (o : SceneObj) : Vec3 × Quat × Vec3 := (o.position, o.rotation, o.scale)

/-! ## faceSnapTool.js: performSnap -/

/-- The mating quaternion of `performSnap`: the minimal rotation taking
the source world normal onto the negation of the target world normal. -/
def snapQuat (sourceNormal targetNormal : Vec3) : Quat :=
  setFromUnitVectors sourceNormal (vneg targetNormal)

/-- `performSnap(object, sourceNormal, sourcePoint, targetPoint,
targetNormal)` from `faceSnapTool.js`: premultiply the mating quaternion
into the object's orientation, then translate so the rotated offset from
the object's origin to the source point lands on the target point. -/
def performSnap (object : SceneObj) (sourceNormal sourcePoint targetPoint targetNormal : Vec3) :
    SceneObj :=
  let quat := snapQuat sourceNormal targetNormal
  let rotated := quatMul quat object.rotation
  let offset := vsub sourcePoint object.position
  let rotatedOffset := quatApply quat offset
  let newPos := vsub targetPoint rotatedOffset
  { object with rotation := rotated, position := newPos }

/-- A concrete unrotated unit-ish cube used by the concrete test cases. -/
def testCube : SceneObj :=
  { oid := 1, geomId := 10, geom := ⟨0, ⟨-1, -1, -1⟩, ⟨1, 1, 1⟩⟩,
    color := 0, transparent := false, opacity := 1,
    position := ⟨0, 3, 0⟩, rotation := qid, scale := ⟨1, 1, 1⟩,
    name := "Box 1", castShadow := true, receiveShadow := true }

/-! ## history.js and state.js: the snapshot-based undo/redo store -/

/-- One serialized object of a history snapshot (`serializeObject`'s
return value): the geometry reference, material fields, the full
transform, and the `userData` name. -/
structure SerializedObject where
  geometryUUID : ℕ
  color : ℕ
  transparent : Bool
  opacity : ℚ
  position : Vec3
  rotation : Quat
  scale : Vec3
  name : String
  castShadow : Bool
  receiveShadow : Bool
deriving DecidableEq, Repr

/-- One history snapshot (`saveState`'s `snapshot` object).  The
`Date.now()` timestamp is omitted: nothing in the verified operations
reads it. -/
structure Snapshot where
  objects : List SerializedObject
deriving DecidableEq, Repr

/-- The mutable editor state of `state.js` restricted to the fields the
history engine and the tools read: the scene's object list, the undo
history with its cursor and capacity, and the content-addressed geometry
cache. -/
structure GlobalState where
  objects : List SceneObj
  history : List Snapshot
  historyIndex : ℤ
  maxHistorySize : ℕ
  geometryCache : List (ℕ × GeomData)
deriving DecidableEq, Repr

/-- The pure part of `serializeObject`: build the serialized record.  It
reads nothing from the geometry cache. -/
def serializeObject (o : SceneObj) : SerializedObject :=
  { geometryUUID := o.geomId, color := o.color, transparent := o.transparent,
    opacity := o.opacity, position := o.position, rotation := o.rotation,
    scale := o.scale, name := o.name, castShadow := o.castShadow,
    receiveShadow := o.receiveShadow }

/-- The caching side effect of `serializeObject`: insert the geometry
under its identifier unless already present. -/
def cacheInsert (cache : List (ℕ × GeomData)) (o : SceneObj) : List (ℕ × GeomData) :=
  match cache.lookup o.geomId with
  | some _ => cache
  | none => cache ++ [(o.geomId, o.geom)]

/-- The snapshot of a scene, as `saveState` builds it. -/
def snapPure (objs : List SceneObj) : Snapshot := ⟨objs.map serializeObject⟩

/-- `deserializeObject(data)`: resolve the geometry from the cache,
falling back to the 5x5x5 placeholder box when the identifier is missing;
the transform, material and name are restored from the serialized data
either way.  The `oid` of the rebuilt mesh is fresh in the application (a
new `THREE.Mesh`); we reuse the geometry identifier, which no verified
claim observes. -/
def deserializeObject (cache : List (ℕ × GeomData)) (d : SerializedObject) : SceneObj :=
  let geom :=
    match cache.lookup d.geometryUUID with
    | some g => g
    | none => ⟨999, ⟨-(5 / 2 : ℚ), -(5 / 2 : ℚ), -(5 / 2 : ℚ)⟩, ⟨5 / 2, 5 / 2, 5 / 2⟩⟩
  { oid := d.geometryUUID, geomId := d.geometryUUID, geom := geom,
    color := d.color, transparent := d.transparent, opacity := d.opacity,
    position := d.position, rotation := d.rotation, scale := d.scale,
    name := d.name, castShadow := d.castShadow, receiveShadow := d.receiveShadow }

/-- `saveState()` from `history.js`: serialize the scene (growing the
geometry cache), drop the redo branch after the cursor, append the new
snapshot, then either evict the oldest snapshot (length over capacity;
cursor unchanged) or advance the cursor. -/
def saveState (st : GlobalState) : GlobalState :=
  let snapshot := snapPure st.objects
  let cache := st.objects.foldl cacheInsert st.geometryCache
  let kept := st.history.take (st.historyIndex + 1).toNat
  let appended := kept ++ [snapshot]
  if appended.length > st.maxHistorySize then
    { st with history := appended.drop 1, geometryCache := cache }
  else
    { st with history := appended, historyIndex := st.historyIndex + 1,
              geometryCache := cache }

/-- `restoreState(snapshot)`: replace the scene's objects with the
deserialized snapshot entries (the selection-clearing and autosave side
effects touch no verified state). -/
def restoreState (st : GlobalState) (snapshot : Snapshot) : GlobalState :=
  { st with objects := snapshot.objects.map (deserializeObject st.geometryCache) }

/-- The snapshot used when an index is read out of bounds; under the
code's invariants it is never reached. -/
def emptySnapshot : Snapshot := ⟨[]⟩

/-- `undo()`: no-op at the left boundary, otherwise decrement the cursor
and restore the snapshot it lands on. -/
def undo (st : GlobalState) : GlobalState :=
  if st.historyIndex ≤ 0 then st
  else
    let i := st.historyIndex - 1
    { restoreState st (st.history.getD i.toNat emptySnapshot) with historyIndex := i }

/-- `redo()`: no-op at the right boundary, otherwise increment the cursor
and restore the snapshot it lands on. -/
def redo (st : GlobalState) : GlobalState :=
  if st.historyIndex ≥ (st.history.length : ℤ) - 1 then st
  else
    let i := st.historyIndex + 1
    { restoreState st (st.history.getD i.toNat emptySnapshot) with historyIndex := i }

/-- One push of the capacity experiment: set the scene to `objs` and call
`saveState()` (each editor operation ends with such a save). -/
def pushScene (st : GlobalState) (objs : List SceneObj) : GlobalState :=
  saveState { st with objects := objs }

/-- Iterate `pushScene` over a list of scenes. -/
def pushAll (scenes : List (List SceneObj)) (st : GlobalState) : GlobalState :=
  scenes.foldl pushScene st

/-- A fresh editor session with history capacity `cap`
(`state.js` initializes `history = []`, `historyIndex = -1`). -/
def initState (cap : ℕ) : GlobalState :=
  { objects := [], history := [], historyIndex := -1, maxHistorySize := cap,
    geometryCache := [] }

/-- The invariant every reachable history store satisfies: the cursor
sits at the end of the history, which never exceeds the (positive)
capacity. -/
def Tracked (st : GlobalState) : Prop :=
  st.historyIndex + 1 = (st.history.length : ℤ) ∧
  st.history.length ≤ st.maxHistorySize ∧ 1 ≤ st.maxHistorySize

/-- A fresh single-cube session used by the concrete history scenarios. -/
def histSeed : GlobalState :=
  { objects := [testCube], history := [], historyIndex := -1, maxHistorySize := 100,
    geometryCache := [] }

/-- The test cube moved to `(1,0,0)` — the mutated transform P1. -/
def movedCube : SceneObj := { testCube with position := ⟨1, 0, 0⟩ }

/-- A full store at capacity 2 with the cursor at the end. -/
def fullStore : GlobalState :=
  { objects := [testCube], history := [emptySnapshot, emptySnapshot], historyIndex := 1,
    maxHistorySize := 2, geometryCache := [] }

/-! ## transformTool.js: resize handles and drag-to-scale -/

/-- The drag delta after optional snapping (`state.snapValue > 0` rounds
each component to the nearest multiple). -/
def snapDelta (snapValue : ℚ) (delta : Vec3) : Vec3 :=
  if 0 < snapValue then
    ⟨jsRoundMult snapValue delta.x, jsRoundMult snapValue delta.y,
     jsRoundMult snapValue delta.z⟩
  else delta

/-- `dSize` of `handleDrag`: the size change per axis is the delta times
the sign of the handle direction on that axis (zero on unaffected axes). -/
def dSizeOf (dir delta : Vec3) : Vec3 :=
  ⟨delta.x * (if dir.x ≠ 0 then jsSign dir.x else 0),
   delta.y * (if dir.y ≠ 0 then jsSign dir.y else 0),
   delta.z * (if dir.z ≠ 0 then jsSign dir.z else 0)⟩

/-- The raw per-axis scale factor `(initialSize + dSize) / initialSize`,
or 1 on axes the handle does not control. -/
def rawScale (dirC initialSize dS : ℚ) : ℚ :=
  if dirC ≠ 0 then (initialSize + dS) / initialSize else 1

/-- The `epsilon = 0.001` clamp of `handleDrag`: a factor whose absolute
value is below `0.001` is replaced by `0.001 * Math.sign(scale || 1)`. -/
def clampScale (s : ℚ) : ℚ :=
  if |s| < 1 / 1000 then (1 / 1000) * jsSign (if s = 0 then 1 else s) else s

/-- The three clamped per-axis scale factors of one drag frame. -/
def dragScales (dir initialSize delta : Vec3) : Vec3 :=
  let d := dSizeOf dir delta
  ⟨clampScale (rawScale dir.x initialSize.x d.x),
   clampScale (rawScale dir.y initialSize.y d.y),
   clampScale (rawScale dir.z initialSize.z d.z)⟩

/-- The anchor of `handleDrag`: per axis the initial group-box minimum
when `direction >= 0` and the maximum otherwise. -/
def anchorOf (dir bmin bmax : Vec3) : Vec3 :=
  ⟨if 0 ≤ dir.x then bmin.x else bmax.x,
   if 0 ≤ dir.y then bmin.y else bmax.y,
   if 0 ≤ dir.z then bmin.z else bmax.z⟩

/-- Per-object state captured at pointer-down (`initialObjectStates`). -/
structure InitState where
  oid : ℕ
  position : Vec3
  scale : Vec3
  quaternion : Quat
deriving DecidableEq, Repr

/-- Capture the initial states of the selected objects. -/
def captureInitial (objs : List SceneObj) : List InitState :=
  objs.map fun o => ⟨o.oid, o.position, o.scale, o.rotation⟩

/-- The per-object mutation of one drag frame:
`scale := initialScale * scaleFactor` componentwise and
`position := anchor + (initialPosition - anchor) * scaleFactor`. -/
def applyDragObj (anchor scales : Vec3) (o : SceneObj) : SceneObj :=
  { o with scale := vhad o.scale scales,
           position := vadd anchor (vhad (vsub o.position anchor) scales) }

/-- `handleDrag` acting on the whole scene: objects with a captured
initial state are rescaled and repositioned from that state; every other
object is untouched. -/
def handleDragScene (initStates : List InitState) (dir delta : Vec3) (snapValue : ℚ)
    (bounds : Vec3 × Vec3) (scene : List SceneObj) : List SceneObj :=
  let d := snapDelta snapValue delta
  let scales := dragScales dir (vsub bounds.2 bounds.1) d
  let anchor := anchorOf dir bounds.1 bounds.2
  scene.map fun o =>
    match initStates.find? (fun s => s.oid == o.oid) with
    | some s =>
        { o with scale := vhad s.scale scales,
                 position := vadd anchor (vhad (vsub s.position anchor) scales) }
    | none => o

/-- One drag frame applied to the selection itself: every selected object
is transformed from its own captured initial state (in the application
the initial states are exactly the selected objects' states at
pointer-down, referenced by object identity). -/
def resizeDragFrame (dir delta : Vec3) (snapValue : ℚ) (bounds : Vec3 × Vec3)
    (objs : List SceneObj) : List SceneObj :=
  objs.map (applyDragObj (anchorOf dir bounds.1 bounds.2)
    (dragScales dir (vsub bounds.2 bounds.1) (snapDelta snapValue delta)))

/-- The eight corners of an axis-aligned box. -/
def corners (a b : Vec3) : List Vec3 :=
  [⟨a.x, a.y, a.z⟩, ⟨a.x, a.y, b.z⟩, ⟨a.x, b.y, a.z⟩, ⟨a.x, b.y, b.z⟩,
   ⟨b.x, a.y, a.z⟩, ⟨b.x, a.y, b.z⟩, ⟨b.x, b.y, a.z⟩, ⟨b.x, b.y, b.z⟩]

/-- The world-space offsets of the geometry box corners from the object's
origin: scale then rotate each corner (the translation part of
`matrixWorld` is added separately). -/
def cornerOffsets (o : SceneObj) : List Vec3 :=
  (corners o.geom.lmin o.geom.lmax).map fun c => quatApply o.rotation (vhad o.scale c)

/-- Componentwise minimum of a nonempty vector list (zero for `[]`,
which no caller reaches). -/
def vecListMin : List Vec3 → Vec3
  | [] => ⟨0, 0, 0⟩
  | v :: rest => rest.foldl vmin v

/-- Componentwise maximum of a nonempty vector list. -/
def vecListMax : List Vec3 → Vec3
  | [] => ⟨0, 0, 0⟩
  | v :: rest => rest.foldl vmax v

/-- `THREE.Box3.setFromObject` on a mesh whose geometry is its local
axis-aligned box: the world box spans the extrema of the eight
transformed corners, `position + rotation * (scale * corner)`. -/
def worldBox (o : SceneObj) : Vec3 × Vec3 :=
  (vadd o.position (vecListMin (cornerOffsets o)),
   vadd o.position (vecListMax (cornerOffsets o)))

/-- Union of two boxes (`Box3.union` / the min-max folding of
`updateHandles`). -/
def boxUnion (b1 b2 : Vec3 × Vec3) : Vec3 × Vec3 := (vmin b1.1 b2.1, vmax b1.2 b2.2)

/-- The group bounding box of `updateHandles`: the union of the selected
objects' world boxes, `none` when the selection is empty (the
all-infinite initial fold that `isFinite` rejects). -/
def groupBox : List SceneObj → Option (Vec3 × Vec3)
  | [] => none
  | o :: rest => some (rest.foldl (fun b o2 => boxUnion b (worldBox o2)) (worldBox o))

/-- testCube translated so its world box is the cube from 0 to 2. -/
def mirrorCube : SceneObj := { testCube with position := ⟨1, 1, 1⟩ }

/-- testCube rotated about Z by the exactly-rational unit quaternion
`(0, 0, 3/5, 4/5)` (cosine 7/25) and placed so its world box starts at
x = 0: a genuinely tilted object. -/
def rotCube : SceneObj :=
  { testCube with position := ⟨31 / 25, 0, 0⟩, rotation := ⟨0, 0, 3 / 5, 4 / 5⟩ }

/-! ## alignTool.js: per-axis min/center/max alignment -/

/-- A world axis (`'x' | 'y' | 'z'` in the JavaScript). -/
inductive Axis
  | x
  | y
  | z
deriving DecidableEq, Repr

/-- Read one component of a vector (`v[axis]`). -/
def axisGet (v : Vec3) : Axis → ℚ
  | Axis.x => v.x
  | Axis.y => v.y
  | Axis.z => v.z

/-- Write one component of a vector (`v[axis] = q`). -/
def axisSet (v : Vec3) (ax : Axis) (q : ℚ) : Vec3 :=
  match ax with
  | Axis.x => { v with x := q }
  | Axis.y => { v with y := q }
  | Axis.z => { v with z := q }

/-- An alignment mode (`'min' | 'center' | 'max'`). -/
inductive AlignMode
  | amin
  | acenter
  | amax
deriving DecidableEq, Repr

/-- An object's world-box minimum along an axis. -/
def boxMinA (o : SceneObj) (ax : Axis) : ℚ := axisGet (worldBox o).1 ax

/-- An object's world-box maximum along an axis. -/
def boxMaxA (o : SceneObj) (ax : Axis) : ℚ := axisGet (worldBox o).2 ax

/-- An object's world-box center along an axis
(`(box.min[axis] + box.max[axis]) / 2`). -/
def boxCenterA (o : SceneObj) (ax : Axis) : ℚ := (boxMinA o ax + boxMaxA o ax) / 2

/-- `calculateAlignmentTarget(axis, type)`: the minimum of the box
minimums, the maximum of the box maximums, or the unweighted mean of the
box centers of the selected objects.  The empty case is unreachable — the
tool refuses to activate with fewer than two selected objects. -/
def calculateAlignmentTarget (objs : List SceneObj) (ax : Axis) (mode : AlignMode) : ℚ :=
  match objs with
  | [] => 0
  | o :: rest =>
    match mode with
    | AlignMode.amin => rest.foldl (fun a o2 => min a (boxMinA o2 ax)) (boxMinA o ax)
    | AlignMode.amax => rest.foldl (fun a o2 => max a (boxMaxA o2 ax)) (boxMaxA o ax)
    | AlignMode.acenter =>
        ((o :: rest).map fun o2 => boxCenterA o2 ax).sum / (o :: rest).length

/-- The per-object step of `performAlignment`: compute the desired box
center for the mode and shift the object's position along the axis by
`desiredCenter - currentCenter`. -/
def alignObj (target : ℚ) (ax : Axis) (mode : AlignMode) (o : SceneObj) : SceneObj :=
  let size := boxMaxA o ax - boxMinA o ax
  let center := boxCenterA o ax
  let desired :=
    match mode with
    | AlignMode.amin => target + size / 2
    | AlignMode.amax => target - size / 2
    | AlignMode.acenter => target
  { o with position := axisSet o.position ax (desired - (center - axisGet o.position ax)) }

/-- `performAlignment(axis, type)` on the selected objects: one target,
every selected object shifted to it. -/
def performAlignment (objs : List SceneObj) (ax : Axis) (mode : AlignMode) :
    List SceneObj :=
  objs.map (alignObj (calculateAlignmentTarget objs ax mode) ax mode)

/-- testCube with its box center at x = 2 (world box [1,3] on X). -/
def alignCubeA : SceneObj := { testCube with position := ⟨2, 0, 0⟩ }

/-- A second cube with its box center at x = 8. -/
def alignCubeB : SceneObj := { testCube with oid := 2, position := ⟨8, 0, 0⟩ }

/-! ## selection.js: box select -/

/-- The box-select branch of `onPointerUp`: given the selected object
identities, each scene object's projected screen position (the camera
projection of `selection.js` is the host's, so the projected pixel
coordinates are inputs here), and the gesture's start and end pixel
positions.  A rectangle under 5 pixels in both extents is a non-event;
otherwise every object projecting inside the rectangle is unioned into
the selection in scene order. -/
def boxSelectUp (selected : List ℕ) (objs : List (ℕ × ℚ × ℚ)) (start fin : ℚ × ℚ) :
    List ℕ :=
  let minX := min start.1 fin.1
  let maxX := max start.1 fin.1
  let minY := min start.2 fin.2
  let maxY := max start.2 fin.2
  if maxX - minX < 5 ∧ maxY - minY < 5 then selected
  else
    objs.foldl
      (fun acc obj =>
        if minX ≤ obj.2.1 ∧ obj.2.1 ≤ maxX ∧ minY ≤ obj.2.2 ∧ obj.2.2 ≤ maxY ∧
            ¬ acc.contains obj.1
        then acc ++ [obj.1] else acc)
      selected

/-! ## faceSnapTool.js: the two-click state machine -/

/-- A raycast result: the hit object (`null` = ground plane), the local
face normal, the synthetic ground normal, and the world hit point. -/
structure Hit where
  object : Option SceneObj
  faceNormal : Vec3
  normal : Vec3
  point : Vec3

/-- The stored source selection between the two clicks (the object is
held by identity). -/
structure SourceSel where
  oid : ℕ
  normal : Vec3
  point : Vec3

/-- The module-level state of `faceSnapTool.js`: `isActive`, `step`
(0 = awaiting source, 1 = awaiting target) and the pending source. -/
structure FaceSnapState where
  isActive : Bool
  step : ℕ
  source : Option SourceSel

/-- `deactivate()`: inactive, step 0, source discarded. -/
def faceSnapDeactivated : FaceSnapState := ⟨false, 0, none⟩

/-- Apply `performSnap` to the source object inside the scene (object
identity lookup). -/
def snapScene (src : SourceSel) (targetPoint targetNormal : Vec3)
    (objs : List SceneObj) : List SceneObj :=
  objs.map fun ob =>
    if ob.oid = src.oid then performSnap ob src.normal src.point targetPoint targetNormal
    else ob

/-- `onPointerDown` of `faceSnapTool.js`: ignore events while inactive or
with no hit; in step 0 reject ground hits and store an object face as the
source; in step 1 reject the source object itself, otherwise snap the
source object to the hit face (or the ground), deactivate, and save a
history snapshot.  A step-1 state always carries a source in the
application; the impossible `none` case is a no-op. -/
def faceSnapPointerDown (fs : FaceSnapState) (hit : Option Hit) (st : GlobalState) :
    FaceSnapState × GlobalState :=
  if fs.isActive = false then (fs, st)
  else
    match hit with
    | none => (fs, st)
    | some h =>
      if fs.step = 0 then
        match h.object with
        | none => (fs, st)
        | some o =>
            ({ fs with
                step := 1,
                source := some ⟨o.oid, vecNormalize (quatApply o.rotation h.faceNormal),
                  h.point⟩ },
             st)
      else if fs.step = 1 then
        match fs.source with
        | none => (fs, st)
        | some src =>
          match h.object with
          | some o =>
              if o.oid = src.oid then (fs, st)
              else
                (faceSnapDeactivated,
                 saveState
                   { st with
                     objects :=
                       snapScene src h.point
                         (vecNormalize (quatApply o.rotation h.faceNormal)) st.objects })
          | none =>
              (faceSnapDeactivated,
               saveState { st with objects := snapScene src h.point h.normal st.objects })
      else (fs, st)

/-! ## Controller commit sequences (history ordering) -/

/-- A resize commit: `TransformTool.onPointerDown` saves a history
snapshot and captures the initial states, then `handleDrag` frames mutate
the scene. -/
def resizeCommit (sel : List ℕ) (dir delta : Vec3) (snapValue : ℚ) (st : GlobalState) :
    GlobalState :=
  let st1 := saveState st
  let selObjs := st1.objects.filter fun o => sel.contains o.oid
  match groupBox selObjs with
  | none => st1
  | some b =>
      { st1 with
        objects :=
          handleDragScene (captureInitial selObjs) dir delta snapValue b st1.objects }

/-- An alignment commit: `performAlignment` saves a history snapshot
first, then moves the selected objects. -/
def alignApply (sel : List ℕ) (ax : Axis) (mode : AlignMode) (st : GlobalState) :
    GlobalState :=
  let st1 := saveState st
  let selObjs := st1.objects.filter fun o => sel.contains o.oid
  let target := calculateAlignmentTarget selObjs ax mode
  { st1 with objects := st1.objects.map fun o =>
      if sel.contains o.oid then alignObj target ax mode o else o }

/-- A pending face-snap source on the test cube's top face. -/
def topFaceSource : SourceSel := ⟨1, ⟨0, 1, 0⟩, ⟨0, 5, 0⟩⟩

/-- A ground-plane raycast hit at the origin. -/
def groundHit : Hit := ⟨none, ⟨0, 1, 0⟩, ⟨0, 1, 0⟩, ⟨0, 0, 0⟩⟩

/-! ## Theorems -/

lemma ratSqrt_one : ratSqrt 1 = some 1 := by
  norm_num [ratSqrt]

lemma quatNormalize_z : quatNormalize ⟨0, 0, 1, 0⟩ = ⟨0, 0, 1, 0⟩ := by
  norm_num [quatNormalize, ratSqrt_one]

/-- The mating quaternion for source normal +Y and target normal +Y is the
half-turn about Z (the antiparallel branch of `setFromUnitVectors`). -/
lemma snapQuat_up_up : snapQuat ⟨0, 1, 0⟩ ⟨0, 1, 0⟩ = ⟨0, 0, 1, 0⟩ := by
  norm_num [snapQuat, setFromUnitVectors, vdot, vneg, numberEpsilon, quatNormalize_z]

/-- C1: `performSnap` premultiplies the minimal rotation carrying the
source normal onto the negated target normal into the object's
orientation and sets `position = targetPoint - rotatedOffset`, so that
`position + rotatedOffset = targetPoint` exactly; at the spec's test
vectors (source normal `(0,1,0)`, source point `(0,5,0)`, target point
`(0,0,0)`, target normal `(0,1,0)`) the transformed source point is
`(0,0,0)` and the new world face normal is `(0,-1,0)`. -/
theorem C1_performSnap_mates_exactly :
    (∀ (o : SceneObj) (ns ps pt nt : Vec3),
       (performSnap o ns ps pt nt).rotation = quatMul (snapQuat ns nt) o.rotation ∧
       (performSnap o ns ps pt nt).position
         = vsub pt (quatApply (snapQuat ns nt) (vsub ps o.position)) ∧
       vadd (performSnap o ns ps pt nt).position
         (quatApply (snapQuat ns nt) (vsub ps o.position)) = pt) ∧
    (vadd (performSnap testCube ⟨0, 1, 0⟩ ⟨0, 5, 0⟩ ⟨0, 0, 0⟩ ⟨0, 1, 0⟩).position
        (quatApply (snapQuat ⟨0, 1, 0⟩ ⟨0, 1, 0⟩) (vsub ⟨0, 5, 0⟩ testCube.position))
       = ⟨0, 0, 0⟩ ∧
     quatApply (snapQuat ⟨0, 1, 0⟩ ⟨0, 1, 0⟩) ⟨0, 1, 0⟩ = ⟨0, -1, 0⟩ ∧
     quatApply (performSnap testCube ⟨0, 1, 0⟩ ⟨0, 5, 0⟩ ⟨0, 0, 0⟩ ⟨0, 1, 0⟩).rotation
       ⟨0, 1, 0⟩ = ⟨0, -1, 0⟩) := by
  constructor
  · intro o ns ps pt nt
    refine ⟨rfl, rfl, ?_⟩
    show vadd (vsub pt _) _ = pt
    simp only [vadd, vsub]
    ext <;> ring
  · refine ⟨?_, ?_, ?_⟩
    · norm_num [performSnap, snapQuat_up_up, quatApply, vsub, vadd, testCube]
    · norm_num [snapQuat_up_up, quatApply]
    · norm_num [performSnap, snapQuat_up_up, quatApply, quatMul, vsub, testCube, qid]

lemma transformOf_roundtrip (c : List (ℕ × GeomData)) (o : SceneObj) :
    transformOf (deserializeObject c (serializeObject o)) = transformOf o := rfl

/-- Restoring a snapshot of a scene reproduces every transform exactly. -/
lemma restore_transforms (c : List (ℕ × GeomData)) (objs : List SceneObj) :
    ((snapPure objs).objects.map (deserializeObject c)).map transformOf
      = objs.map transformOf := by
  simp only [snapPure, List.map_map]
  exact List.map_congr_left fun o _ => transformOf_roundtrip c o

/-- `saveState` only reads the history through its truncation at the
cursor, so truncating first changes nothing. -/
lemma saveState_truncate (st : GlobalState) :
    saveState st
      = saveState { st with history := st.history.take (st.historyIndex + 1).toNat } := by
  unfold saveState
  dsimp only
  simp [List.take_take]

/-- Normal form of `saveState` on a state whose cursor sits at the end of
the history (the invariant every reachable store satisfies). -/
lemma saveState_step (st : GlobalState)
    (ht : st.historyIndex + 1 = (st.history.length : ℤ)) :
    saveState st =
      if st.history.length + 1 > st.maxHistorySize then
        { st with history := (st.history ++ [snapPure st.objects]).drop 1,
                  geometryCache := st.objects.foldl cacheInsert st.geometryCache }
      else
        { st with history := st.history ++ [snapPure st.objects],
                  historyIndex := st.historyIndex + 1,
                  geometryCache := st.objects.foldl cacheInsert st.geometryCache } := by
  have h1 : (st.historyIndex + 1).toNat = st.history.length := by omega
  unfold saveState
  dsimp only
  rw [h1, List.take_length]
  simp only [List.length_append, List.length_singleton]

/-- `saveState` facts from any state satisfying the store invariants:
scene, capacity and cache bookkeeping; afterwards the cursor sits on the
just-taken snapshot at the end of the history. -/
lemma saveState_post (st : GlobalState)
    (h1 : -1 ≤ st.historyIndex) (h2 : st.historyIndex < (st.history.length : ℤ))
    (hcap : 1 ≤ st.maxHistorySize) :
    (saveState st).objects = st.objects ∧
    (saveState st).maxHistorySize = st.maxHistorySize ∧
    (saveState st).historyIndex + 1 = ((saveState st).history.length : ℤ) ∧
    0 ≤ (saveState st).historyIndex ∧
    (saveState st).history.getD (saveState st).historyIndex.toNat emptySnapshot
      = snapPure st.objects := by
  rw [saveState_truncate st]
  have hmlen : (st.history.take (st.historyIndex + 1).toNat).length
      = (st.historyIndex + 1).toNat := by
    rw [List.length_take]; omega
  have hstep := saveState_step { st with history := st.history.take (st.historyIndex + 1).toNat }
    (by dsimp only; rw [hmlen]; omega)
  rw [hstep]
  dsimp only
  split
  · next hover =>
      dsimp only at hover ⊢
      simp only [hmlen] at hover
      refine ⟨rfl, rfl, ?_, by omega, ?_⟩
      · simp only [List.length_drop, List.length_append, List.length_singleton, hmlen]
        push_cast; omega
      · have hL :
            ((st.history.take (st.historyIndex + 1).toNat ++ [snapPure st.objects]).drop 1).getD
                st.historyIndex.toNat emptySnapshot
              = (st.history.take (st.historyIndex + 1).toNat ++ [snapPure st.objects]).getD
                  (1 + st.historyIndex.toNat) emptySnapshot := by
          simp [List.getD_eq_getElem?_getD, List.getElem?_drop, Nat.add_comm]
        rw [hL]
        have h1' : 1 + st.historyIndex.toNat = (st.historyIndex + 1).toNat := by omega
        rw [h1']
        simp [List.getD_eq_getElem?_getD, List.getElem?_append_right, hmlen]
  · next hover =>
      dsimp only at hover ⊢
      refine ⟨rfl, rfl, ?_, by omega, ?_⟩
      · simp only [List.length_append, List.length_singleton, hmlen]
        push_cast; omega
      · simp [List.getD_eq_getElem?_getD, List.getElem?_append_right, hmlen]

/-- On an end-aligned store with capacity at least 2, a further
`saveState` leaves the previous cursor snapshot immediately before the
new one, and the cursor strictly past the left undo boundary. -/
lemma saveState_penult (st : GlobalState)
    (ht : st.historyIndex + 1 = (st.history.length : ℤ))
    (h0 : 0 ≤ st.historyIndex)
    (hcap : 2 ≤ st.maxHistorySize) :
    1 ≤ (saveState st).historyIndex ∧
    (saveState st).history.getD ((saveState st).historyIndex.toNat - 1) emptySnapshot
      = st.history.getD st.historyIndex.toNat emptySnapshot := by
  have hlt : st.historyIndex.toNat < st.history.length := by omega
  rw [saveState_step st ht]
  split
  · next hover =>
      dsimp only at hover ⊢
      constructor
      · omega
      · have hL :
            ((st.history ++ [snapPure st.objects]).drop 1).getD
                (st.historyIndex.toNat - 1) emptySnapshot
              = (st.history ++ [snapPure st.objects]).getD
                  (1 + (st.historyIndex.toNat - 1)) emptySnapshot := by
          simp [List.getD_eq_getElem?_getD, List.getElem?_drop, Nat.add_comm]
        rw [hL]
        have h1' : 1 + (st.historyIndex.toNat - 1) = st.historyIndex.toNat := by omega
        rw [h1']
        simp [List.getD_eq_getElem?_getD, List.getElem?_append, hlt]
  · next hover =>
      dsimp only at hover ⊢
      constructor
      · omega
      · have h1' : (st.historyIndex + 1).toNat - 1 = st.historyIndex.toNat := by omega
        rw [h1']
        simp [List.getD_eq_getElem?_getD, List.getElem?_append, hlt]

/-- `undo` away from the left boundary: decrement the cursor and rebuild
the scene from the snapshot at the new cursor. -/
lemma undo_restores (st : GlobalState) (h : 0 < st.historyIndex) :
    (undo st).objects
        = (st.history.getD (st.historyIndex - 1).toNat emptySnapshot).objects.map
            (deserializeObject st.geometryCache) ∧
    (undo st).history = st.history ∧
    (undo st).historyIndex = st.historyIndex - 1 ∧
    (undo st).geometryCache = st.geometryCache := by
  rw [undo, if_neg (by omega)]
  exact ⟨rfl, rfl, rfl, rfl⟩

/-- `redo` away from the right boundary: increment the cursor and rebuild
the scene from the snapshot at the new cursor. -/
lemma redo_restores (st : GlobalState) (h : st.historyIndex < (st.history.length : ℤ) - 1) :
    (redo st).objects
        = (st.history.getD (st.historyIndex + 1).toNat emptySnapshot).objects.map
            (deserializeObject st.geometryCache) ∧
    (redo st).history = st.history ∧
    (redo st).historyIndex = st.historyIndex + 1 := by
  rw [redo, if_neg (by omega)]
  exact ⟨rfl, rfl, rfl⟩

/-- C2 (amended): starting from any store satisfying the cursor
invariants (capacity at least 2), snapshotting the scene P0, mutating the
scene to arbitrary objects P1, snapshotting again — as every editor
operation does when it commits — and then calling `undo()` restores every
object transform of P0 exactly, and a subsequent `redo()` restores the
transforms of P1 exactly. -/
theorem C2_undo_redo_roundtrip (st : GlobalState) (objs2 : List SceneObj)
    (h1 : -1 ≤ st.historyIndex) (h2 : st.historyIndex < (st.history.length : ℤ))
    (hcap : 2 ≤ st.maxHistorySize) :
    (undo (saveState { saveState st with objects := objs2 })).objects.map transformOf
        = st.objects.map transformOf ∧
    (redo (undo (saveState { saveState st with objects := objs2 }))).objects.map transformOf
        = objs2.map transformOf := by
  obtain ⟨ho1, hc1, ha1, hz1, hs1⟩ := saveState_post st h1 h2 (by omega)
  set st1 := saveState st with hst1
  set st2 : GlobalState := { st1 with objects := objs2 } with hst2
  have ha2 : st2.historyIndex + 1 = (st2.history.length : ℤ) := ha1
  have hz2 : 0 ≤ st2.historyIndex := hz1
  have hcap2 : 2 ≤ st2.maxHistorySize := by
    have : st2.maxHistorySize = st1.maxHistorySize := rfl
    omega
  obtain ⟨hp1, hp2⟩ := saveState_penult st2 ha2 hz2 hcap2
  obtain ⟨ho3, hc3, ha3, hz3, hs3⟩ := saveState_post st2 (by omega) (by omega) (by omega)
  set st3 := saveState st2 with hst3
  obtain ⟨hu1, hu2, hu3, hu4⟩ := undo_restores st3 (by omega)
  have hidx1 : (st3.historyIndex - 1).toNat = st3.historyIndex.toNat - 1 := by omega
  have hpen : st3.history.getD (st3.historyIndex.toNat - 1) emptySnapshot
      = snapPure st.objects := by
    rw [hp2]
    exact hs1
  constructor
  · rw [hu1, hidx1, hpen]
    exact restore_transforms _ _
  · obtain ⟨hr1, hr2, hr3⟩ := redo_restores (undo st3) (by rw [hu2, hu3]; omega)
    have hidx2 : ((undo st3).historyIndex + 1).toNat = st3.historyIndex.toNat := by
      rw [hu3]; omega
    rw [hr1, hidx2, hu2, hu4, hs3]
    exact restore_transforms _ _

/-- Characterization of iterated pushes: the retained history is the
suffix of all snapshots that fits the capacity, and the cursor tracks the
retained length. -/
lemma pushAll_spec (scenes : List (List SceneObj)) :
    ∀ st : GlobalState, Tracked st →
      (pushAll scenes st).history
          = (st.history ++ scenes.map snapPure).drop
              (st.history.length + scenes.length - st.maxHistorySize) ∧
      (pushAll scenes st).historyIndex + 1
          = ((min (st.history.length + scenes.length) st.maxHistorySize : ℕ) : ℤ) ∧
      (pushAll scenes st).maxHistorySize = st.maxHistorySize := by
  induction scenes with
  | nil =>
      intro st ⟨ht, hle, hcap⟩
      refine ⟨?_, ?_, rfl⟩
      · simp [pushAll, Nat.sub_eq_zero_of_le hle]
      · simp only [pushAll, List.foldl_nil, List.length_nil, Nat.add_zero]
        omega
  | cons s rest ih =>
      intro st ⟨ht, hle, hcap⟩
      have hstep := saveState_step { st with objects := s } (by dsimp only; exact ht)
      have hfold : pushAll (s :: rest) st = pushAll rest (pushScene st s) := rfl
      rw [hfold]
      unfold pushScene
      rw [hstep]
      dsimp only at hstep ⊢
      split
      · next hover =>
          have hlen : st.history.length = st.maxHistorySize := by omega
          have htr : Tracked
              { st with
                objects := s,
                history := (st.history ++ [snapPure s]).drop 1,
                geometryCache := s.foldl cacheInsert st.geometryCache } := by
            refine ⟨?_, ?_, hcap⟩ <;>
              simp only [List.length_drop, List.length_append, List.length_singleton] <;>
              omega
          obtain ⟨ihh, ihi, ihc⟩ := ih _ htr
          refine ⟨?_, ?_, ihc⟩
          · rw [ihh]
            dsimp only
            rw [← List.drop_append_of_le_length
                  (by simp : 1 ≤ (st.history ++ [snapPure s]).length),
                List.drop_drop, List.append_assoc]
            have hm : [snapPure s] ++ rest.map snapPure = (s :: rest).map snapPure := rfl
            rw [hm]
            congr 1
            dsimp only
            simp only [List.length_drop, List.length_append, List.length_singleton,
              List.length_cons, List.length_nil]
            omega
          · rw [ihi]
            dsimp only
            congr 1
            dsimp only
            simp only [List.length_drop, List.length_append, List.length_singleton,
              List.length_cons, List.length_nil]
            omega
      · next hover =>
          have htr : Tracked
              { st with
                objects := s,
                history := st.history ++ [snapPure s],
                historyIndex := st.historyIndex + 1,
                geometryCache := s.foldl cacheInsert st.geometryCache } := by
            refine ⟨?_, ?_, hcap⟩ <;>
              simp only [List.length_append, List.length_singleton] <;> push_cast <;> omega
          obtain ⟨ihh, ihi, ihc⟩ := ih _ htr
          refine ⟨?_, ?_, ihc⟩
          · rw [ihh]
            dsimp only
            rw [List.append_assoc]
            have : [snapPure s] ++ rest.map snapPure = (s :: rest).map snapPure := rfl
            rw [this]
            congr 1
            dsimp only
            simp only [List.length_drop, List.length_append, List.length_singleton,
              List.length_cons, List.length_nil]
            omega
          · rw [ihi]
            dsimp only
            congr 2
            dsimp only
            simp only [List.length_drop, List.length_append, List.length_singleton,
              List.length_cons, List.length_nil]
            omega


/-- C3: `saveState` drops the redo branch after the cursor, appends the
new snapshot, then on overflow evicts index 0 keeping the cursor pinned at
`capacity - 1`, and otherwise advances the cursor; consequently pushing
`capacity + k` snapshots from a fresh store retains exactly `capacity`
snapshots — the last `capacity` ones, the oldest `k` discarded. -/
theorem C3_saveState_capacity_eviction :
    (∀ st : GlobalState,
        saveState st
          = saveState { st with history := st.history.take (st.historyIndex + 1).toNat }) ∧
    (∀ st : GlobalState, Tracked st → st.history.length = st.maxHistorySize →
        (saveState st).history = (st.history ++ [snapPure st.objects]).drop 1 ∧
        (saveState st).history.length = st.maxHistorySize ∧
        (saveState st).historyIndex = st.historyIndex ∧
        (saveState st).historyIndex = (st.maxHistorySize : ℤ) - 1) ∧
    (∀ st : GlobalState, Tracked st → st.history.length < st.maxHistorySize →
        (saveState st).history = st.history ++ [snapPure st.objects] ∧
        (saveState st).historyIndex = st.historyIndex + 1) ∧
    (∀ (cap k : ℕ) (scenes : List (List SceneObj)), 1 ≤ cap →
        scenes.length = cap + k →
        (pushAll scenes (initState cap)).history = (scenes.drop k).map snapPure ∧
        (pushAll scenes (initState cap)).history.length = cap ∧
        (pushAll scenes (initState cap)).historyIndex = (cap : ℤ) - 1) := by
  refine ⟨saveState_truncate, ?_, ?_, ?_⟩
  · intro st ⟨ht, hle, hcap⟩ hfull
    rw [saveState_step st ht, if_pos (by omega)]
    refine ⟨rfl, ?_, rfl, ?_⟩
    · simp only [List.length_drop, List.length_append, List.length_singleton]
      omega
    · dsimp only
      omega
  · intro st ⟨ht, hle, hcap⟩ hlt
    rw [saveState_step st ht, if_neg (by omega)]
    exact ⟨rfl, rfl⟩
  · intro cap k scenes hcap hlen
    have htr : Tracked (initState cap) := by
      refine ⟨?_, ?_, ?_⟩ <;> simp [initState] <;> omega
    obtain ⟨hh, hi, _⟩ := pushAll_spec scenes (initState cap) htr
    have hinit1 : (initState cap).history = [] := rfl
    have hinit2 : (initState cap).maxHistorySize = cap := rfl
    rw [hinit1, hinit2] at hh hi
    simp only [List.nil_append, List.length_nil, Nat.zero_add, hlen] at hh hi
    have hd : cap + k - cap = k := by omega
    rw [hd] at hh
    refine ⟨?_, ?_, ?_⟩
    · rw [hh, List.map_drop]
    · rw [hh]
      simp only [List.length_drop, List.length_map, hlen]
      omega
    · omega



/-- C2 counterexample: snapshotting P0 into a fresh store, mutating the
scene to P1 and calling `undo()` does NOT restore P0 — the cursor is at
the left boundary, `undo()` is a no-op, and the scene keeps P1. -/
theorem C2_counterexample_undo_without_resnapshot :
    (undo { saveState histSeed with objects := [movedCube] }).objects.map transformOf
      ≠ histSeed.objects.map transformOf := by
  have hL : (undo { saveState histSeed with objects := [movedCube] }).objects
      = [movedCube] := rfl
  intro h
  rw [hL] at h
  simp only [histSeed, movedCube, testCube, transformOf, List.map_cons, List.map_nil,
    List.cons.injEq, Prod.mk.injEq, Vec3.mk.injEq] at h
  norm_num at h

/-- Witness for C2 at a concrete fresh store and a concrete mutation. -/
theorem C2_undo_redo_roundtrip_witness :
    (-1 ≤ histSeed.historyIndex ∧ histSeed.historyIndex < (histSeed.history.length : ℤ) ∧
      2 ≤ histSeed.maxHistorySize) ∧
    ((undo (saveState { saveState histSeed with objects := [movedCube] })).objects.map
          transformOf
        = histSeed.objects.map transformOf ∧
     (redo (undo (saveState { saveState histSeed with objects := [movedCube] }))).objects.map
          transformOf
        = [movedCube].map transformOf) :=
  ⟨⟨by norm_num [histSeed], by norm_num [histSeed], by norm_num [histSeed]⟩,
   C2_undo_redo_roundtrip histSeed [movedCube] (by norm_num [histSeed])
     (by norm_num [histSeed]) (by norm_num [histSeed])⟩


/-- Witness for C3: the eviction step on a concrete full store, the
append step on a concrete fresh store, and three pushes into capacity 2
keeping the last two snapshots. -/
theorem C3_saveState_capacity_eviction_witness :
    ((Tracked fullStore ∧ fullStore.history.length = fullStore.maxHistorySize) ∧
      (saveState fullStore).history
          = (fullStore.history ++ [snapPure fullStore.objects]).drop 1 ∧
      (saveState fullStore).historyIndex = fullStore.historyIndex) ∧
    ((1 ≤ 2 ∧ ([[testCube], [movedCube], []] : List (List SceneObj)).length = 2 + 1) ∧
      (pushAll [[testCube], [movedCube], []] (initState 2)).history
          = (([[testCube], [movedCube], []] : List (List SceneObj)).drop 1).map snapPure ∧
      (pushAll [[testCube], [movedCube], []] (initState 2)).historyIndex = (2 : ℤ) - 1) := by
  have htr : Tracked fullStore := by
    refine ⟨?_, ?_, ?_⟩ <;> norm_num [Tracked, fullStore]
  have hfull : fullStore.history.length = fullStore.maxHistorySize := by
    norm_num [fullStore]
  refine ⟨⟨⟨htr, hfull⟩, ?_, ?_⟩, ⟨⟨by norm_num, by norm_num⟩, ?_, ?_⟩⟩
  · exact (C3_saveState_capacity_eviction.2.1 fullStore htr hfull).1
  · exact (C3_saveState_capacity_eviction.2.1 fullStore htr hfull).2.2.1
  · exact (C3_saveState_capacity_eviction.2.2.2 2 1 [[testCube], [movedCube], []]
      (by norm_num) (by norm_num)).1
  · exact (C3_saveState_capacity_eviction.2.2.2 2 1 [[testCube], [movedCube], []]
      (by norm_num) (by norm_num)).2.2

lemma min_dup (a b : ℚ) : min a (min a b) = min a b := by rw [← min_assoc, min_self]

lemma quatApply_qid (v : Vec3) : quatApply qid v = v := by
  cases v
  simp only [quatApply, qid]
  ext <;> dsimp only <;> ring

/-- World-box minimum X of an unrotated object. -/
lemma worldBox_min_x_id (o : SceneObj) (hr : o.rotation = qid) :
    (worldBox o).1.x
      = o.position.x + min (o.scale.x * o.geom.lmin.x) (o.scale.x * o.geom.lmax.x) := by
  simp only [worldBox, cornerOffsets, corners, List.map_cons, List.map_nil, hr,
    quatApply_qid, vhad, vecListMin, List.foldl_cons, List.foldl_nil, vadd, vmin]
  congr 1
  simp [min_assoc, min_comm, min_left_comm, min_self, min_dup]

/-- One dragged object's new box-minimum X is the image of its old one
under the affine map fixing the anchor, provided the object is unrotated
and the X factor is nonnegative. -/
lemma applyDragObj_min_x (anchor scales : Vec3) (o : SceneObj)
    (hr : o.rotation = qid) (hs : 0 ≤ scales.x) :
    (worldBox (applyDragObj anchor scales o)).1.x
      = anchor.x + scales.x * ((worldBox o).1.x - anchor.x) := by
  have h1 : (applyDragObj anchor scales o).rotation = qid := hr
  rw [worldBox_min_x_id _ h1, worldBox_min_x_id o hr]
  simp only [applyDragObj, vadd, vsub, vhad]
  have hA : o.scale.x * scales.x * o.geom.lmin.x
      = scales.x * (o.scale.x * o.geom.lmin.x) := by ring
  have hB : o.scale.x * scales.x * o.geom.lmax.x
      = scales.x * (o.scale.x * o.geom.lmax.x) := by ring
  rw [hA, hB, ← mul_min_of_nonneg _ _ hs]
  ring

/-- The X coordinate of a group-box fold is the fold of the member
boxes' minimum X values. -/
lemma foldl_boxUnion_min_x (rest : List SceneObj) :
    ∀ b : Vec3 × Vec3,
      ((rest.foldl (fun b o2 => boxUnion b (worldBox o2)) b).1).x
        = rest.foldl (fun a o2 => min a (worldBox o2).1.x) b.1.x := by
  induction rest with
  | nil => intro b; rfl
  | cons o t ih =>
      intro b
      simp only [List.foldl_cons]
      rw [ih]
      rfl

/-- Folding minima over the dragged objects is the affine image of the
fold over the originals (the map `a ↦ anchor + s * (a - anchor)` is
min-preserving for nonnegative `s`). -/
lemma foldl_min_x_map (g : SceneObj → SceneObj) (c s : ℚ) (hs : 0 ≤ s) :
    ∀ (l : List SceneObj) (b : ℚ),
      (∀ o ∈ l, (worldBox (g o)).1.x = c + s * ((worldBox o).1.x - c)) →
      (l.map g).foldl (fun a o2 => min a (worldBox o2).1.x) (c + s * (b - c))
        = c + s * (l.foldl (fun a o2 => min a (worldBox o2).1.x) b - c) := by
  intro l
  induction l with
  | nil => intro b _; rfl
  | cons o t ih =>
      intro b hmem
      simp only [List.map_cons, List.foldl_cons]
      rw [hmem o (by simp)]
      have hmin : min (c + s * (b - c)) (c + s * ((worldBox o).1.x - c))
          = c + s * (min b (worldBox o).1.x - c) := by
        rw [min_add_add_left]
        congr 1
        rw [show s * (b - c) = s * b - s * c by ring,
            show s * ((worldBox o).1.x - c) = s * (worldBox o).1.x - s * c by ring,
            min_sub_sub_right, ← mul_min_of_nonneg _ _ hs]
        ring
      rw [hmin]
      exact ih _ fun o2 h2 => hmem o2 (by simp [h2])

/-- C5 (amended): during a resize drag the anchor is the initial group
minimum on axes with nonnegative handle direction (the maximum
otherwise), each object moves to
`anchor + (initialPosition - anchor) * scaleFactor` with
`scale := initialScale * scaleFactor`, and — for an unrotated selection
and a drag whose clamped X factor stays positive (no mirror) — dragging a
maximum-X-side handle leaves the minimum-X face of the selection's
bounding box exactly in place. -/
theorem C5_resize_anchor_invariant (objs : List SceneObj) (gmin gmax dir delta : Vec3)
    (snapValue : ℚ)
    (hrot : ∀ o ∈ objs, o.rotation = qid)
    (hbox : groupBox objs = some (gmin, gmax))
    (hdirx : 0 < dir.x)
    (hsx : 0 < (dragScales dir (vsub gmax gmin) (snapDelta snapValue delta)).x) :
    (∀ o ∈ objs,
        (applyDragObj (anchorOf dir gmin gmax)
            (dragScales dir (vsub gmax gmin) (snapDelta snapValue delta)) o).position
          = vadd (anchorOf dir gmin gmax)
              (vhad (vsub o.position (anchorOf dir gmin gmax))
                (dragScales dir (vsub gmax gmin) (snapDelta snapValue delta))) ∧
        (applyDragObj (anchorOf dir gmin gmax)
            (dragScales dir (vsub gmax gmin) (snapDelta snapValue delta)) o).scale
          = vhad o.scale (dragScales dir (vsub gmax gmin) (snapDelta snapValue delta))) ∧
    (anchorOf dir gmin gmax).x = gmin.x ∧
    (∃ b : Vec3 × Vec3,
      groupBox (resizeDragFrame dir delta snapValue (gmin, gmax) objs) = some b ∧
      b.1.x = gmin.x) := by
  have hanchorx : (anchorOf dir gmin gmax).x = gmin.x := by
    simp [anchorOf, hdirx.le]
  refine ⟨fun o _ => ⟨rfl, rfl⟩, hanchorx, ?_⟩
  obtain ⟨o, rest, rfl⟩ : ∃ o rest, objs = o :: rest := by
    cases objs with
    | nil => simp [groupBox] at hbox
    | cons o rest => exact ⟨o, rest, rfl⟩
  have hfold : rest.foldl (fun b o2 => boxUnion b (worldBox o2)) (worldBox o)
      = (gmin, gmax) := by
    simpa [groupBox] using hbox
  have hgminx : gmin.x
      = rest.foldl (fun a o2 => min a (worldBox o2).1.x) (worldBox o).1.x := by
    rw [← foldl_boxUnion_min_x, hfold]
  refine ⟨_, rfl, ?_⟩
  rw [foldl_boxUnion_min_x]
  rw [applyDragObj_min_x _ _ o (hrot o (by simp)) hsx.le]
  rw [hanchorx]
  rw [foldl_min_x_map _ gmin.x _ hsx.le rest _ (fun o2 h2 => by
    rw [applyDragObj_min_x _ _ o2 (hrot o2 (by simp [h2])) hsx.le, hanchorx])]
  rw [← hgminx]
  ring

lemma worldBox_mirrorCube : worldBox mirrorCube = (⟨0, 0, 0⟩, ⟨2, 2, 2⟩) := by
  norm_num [worldBox, cornerOffsets, corners, vecListMin, vecListMax, vmin, vmax,
    vhad, vadd, quatApply, qid, mirrorCube, testCube, min_def, max_def]

lemma groupBox_mirrorCube : groupBox [mirrorCube] = some (⟨0, 0, 0⟩, ⟨2, 2, 2⟩) := by
  simp [groupBox, worldBox_mirrorCube]

lemma mirror_drag_result :
    resizeDragFrame ⟨1, -1, 0⟩ ⟨-4, 0, 0⟩ 0 (⟨0, 0, 0⟩, ⟨2, 2, 2⟩) [mirrorCube]
      = [{ mirrorCube with scale := ⟨-1, 1, 1⟩, position := ⟨-1, 1, 1⟩ }] := by
  norm_num [resizeDragFrame, applyDragObj, anchorOf, dragScales, dSizeOf, rawScale,
    clampScale, jsSign, snapDelta, vhad, vadd, vsub, mirrorCube, testCube]

lemma worldBox_mirrored :
    worldBox { mirrorCube with scale := ⟨-1, 1, 1⟩, position := ⟨-1, 1, 1⟩ }
      = (⟨-2, 0, 0⟩, ⟨0, 2, 2⟩) := by
  norm_num [worldBox, cornerOffsets, corners, vecListMin, vecListMax, vmin, vmax,
    vhad, vadd, quatApply, qid, mirrorCube, testCube, min_def, max_def]

lemma worldBox_rotCube :
    worldBox rotCube = (⟨0, -(31 / 25), -1⟩, ⟨62 / 25, 31 / 25, 1⟩) := by
  norm_num [worldBox, cornerOffsets, corners, vecListMin, vecListMax, vmin, vmax,
    vhad, vadd, quatApply, rotCube, testCube, min_def, max_def]

lemma groupBox_rotCube :
    groupBox [rotCube] = some (⟨0, -(31 / 25), -1⟩, ⟨62 / 25, 31 / 25, 1⟩) := by
  simp [groupBox, worldBox_rotCube]

lemma rot_drag_scales_plain :
    dragScales ⟨1, -1, 0⟩ ⟨62 / 25, 62 / 25, 2⟩ (snapDelta 0 ⟨62 / 25, 0, 0⟩)
      = ⟨2, 1, 1⟩ := by
  norm_num [dragScales, dSizeOf, rawScale, clampScale, jsSign, snapDelta, abs_of_pos]

lemma rot_drag_scales :
    dragScales ⟨1, -1, 0⟩ (vsub ⟨62 / 25, 31 / 25, 1⟩ ⟨0, -(31 / 25), -1⟩)
        (snapDelta 0 ⟨62 / 25, 0, 0⟩)
      = ⟨2, 1, 1⟩ := by
  rw [show vsub ⟨62 / 25, 31 / 25, 1⟩ ⟨0, -(31 / 25), -1⟩ = (⟨62 / 25, 62 / 25, 2⟩ : Vec3)
    from by norm_num [vsub]]
  exact rot_drag_scales_plain

lemma rot_drag_result :
    resizeDragFrame ⟨1, -1, 0⟩ ⟨62 / 25, 0, 0⟩ 0
        (⟨0, -(31 / 25), -1⟩, ⟨62 / 25, 31 / 25, 1⟩) [rotCube]
      = [{ rotCube with scale := ⟨2, 1, 1⟩, position := ⟨62 / 25, 0, 0⟩ }] := by
  norm_num [resizeDragFrame, applyDragObj, anchorOf, rot_drag_scales_plain, vhad, vadd,
    vsub, rotCube, testCube]

lemma worldBox_rotDragged :
    worldBox { rotCube with scale := ⟨2, 1, 1⟩, position := ⟨62 / 25, 0, 0⟩ }
      = (⟨24 / 25, -(11 / 5), -1⟩, ⟨4, 11 / 5, 1⟩) := by
  norm_num [worldBox, cornerOffsets, corners, vecListMin, vecListMax, vmin, vmax,
    vhad, vadd, quatApply, rotCube, testCube, min_def, max_def]

/-- C5 counterexample, two instances of the same right-side-handle drag
(direction `(1,-1,0)`).  First, crossing the anchor: `delta.x = -4` on an
unrotated cube with box `[0,2]` makes the scale factor `-1` and the
minimum-X face moves from 0 to -2.  Second, a rotated selection: the
tilted `rotCube` (rotation `(0,0,3/5,4/5)`, not the identity) dragged by
`delta.x = 62/25` gets the positive factor 2, yet its minimum-X face
moves from 0 to 24/25 — so the invariant holds for neither mirrored drags
nor rotated selections, forcing both conditions of the amendment. -/
theorem C5_counterexample_min_face_moves :
    (groupBox [mirrorCube] = some (⟨0, 0, 0⟩, ⟨2, 2, 2⟩) ∧
     groupBox (resizeDragFrame ⟨1, -1, 0⟩ ⟨-4, 0, 0⟩ 0 (⟨0, 0, 0⟩, ⟨2, 2, 2⟩) [mirrorCube])
       = some (⟨-2, 0, 0⟩, ⟨0, 2, 2⟩)) ∧
    (rotCube.rotation ≠ qid ∧
     0 < (dragScales ⟨1, -1, 0⟩ (vsub ⟨62 / 25, 31 / 25, 1⟩ ⟨0, -(31 / 25), -1⟩)
            (snapDelta 0 ⟨62 / 25, 0, 0⟩)).x ∧
     groupBox [rotCube] = some (⟨0, -(31 / 25), -1⟩, ⟨62 / 25, 31 / 25, 1⟩) ∧
     groupBox (resizeDragFrame ⟨1, -1, 0⟩ ⟨62 / 25, 0, 0⟩ 0
         (⟨0, -(31 / 25), -1⟩, ⟨62 / 25, 31 / 25, 1⟩) [rotCube])
       = some (⟨24 / 25, -(11 / 5), -1⟩, ⟨4, 11 / 5, 1⟩)) := by
  refine ⟨⟨groupBox_mirrorCube, ?_⟩, ?_, ?_, groupBox_rotCube, ?_⟩
  · rw [mirror_drag_result]
    simp [groupBox, worldBox_mirrored]
  · intro hcontra
    have := congrArg Quat.z hcontra
    norm_num [rotCube, testCube, qid] at this
  · rw [rot_drag_scales]
    norm_num
  · rw [rot_drag_result]
    simp [groupBox, worldBox_rotDragged]

lemma mirror_scales_pos :
    dragScales ⟨1, -1, 0⟩ (vsub ⟨2, 2, 2⟩ ⟨0, 0, 0⟩) (snapDelta 0 ⟨1, 0, 0⟩)
      = ⟨3 / 2, 1, 1⟩ := by
  norm_num [dragScales, dSizeOf, rawScale, clampScale, jsSign, snapDelta, vsub,
    abs_of_pos]

/-- Witness for C5 at a single unrotated cube and a rightward drag. -/
theorem C5_resize_anchor_invariant_witness :
    ((∀ o ∈ [mirrorCube], o.rotation = qid) ∧
      groupBox [mirrorCube] = some (⟨0, 0, 0⟩, ⟨2, 2, 2⟩) ∧
      (0 : ℚ) < (⟨1, -1, 0⟩ : Vec3).x ∧
      0 < (dragScales ⟨1, -1, 0⟩ (vsub ⟨2, 2, 2⟩ ⟨0, 0, 0⟩) (snapDelta 0 ⟨1, 0, 0⟩)).x) ∧
    ((anchorOf ⟨1, -1, 0⟩ ⟨0, 0, 0⟩ ⟨2, 2, 2⟩).x = (⟨0, 0, 0⟩ : Vec3).x ∧
      ∃ b : Vec3 × Vec3,
        groupBox (resizeDragFrame ⟨1, -1, 0⟩ ⟨1, 0, 0⟩ 0 (⟨0, 0, 0⟩, ⟨2, 2, 2⟩)
            [mirrorCube]) = some b ∧
        b.1.x = (⟨0, 0, 0⟩ : Vec3).x) := by
  have h1 : ∀ o ∈ [mirrorCube], o.rotation = qid := by
    intro o ho
    simp only [List.mem_singleton] at ho
    subst ho
    rfl
  have h4 : 0 < (dragScales ⟨1, -1, 0⟩ (vsub ⟨2, 2, 2⟩ ⟨0, 0, 0⟩) (snapDelta 0 ⟨1, 0, 0⟩)).x := by
    rw [mirror_scales_pos]
    norm_num
  have hmain := C5_resize_anchor_invariant [mirrorCube] ⟨0, 0, 0⟩ ⟨2, 2, 2⟩ ⟨1, -1, 0⟩
    ⟨1, 0, 0⟩ 0 h1 groupBox_mirrorCube (by norm_num) h4
  exact ⟨⟨h1, groupBox_mirrorCube, by norm_num, h4⟩, hmain.2.1, hmain.2.2⟩

lemma clampScale_spec (s : ℚ) :
    clampScale s ≠ 0 ∧ (1 / 1000 ≤ |s| → clampScale s = s) ∧
    (|s| < 1 / 1000 → clampScale s = if s < 0 then -(1 / 1000) else 1 / 1000) ∧
    (s < 0 → clampScale s < 0) := by
  unfold clampScale jsSign
  rcases lt_trichotomy s 0 with hneg | rfl | hpos
  · rw [abs_of_neg hneg]
    split_ifs <;> refine ⟨?_, ?_, ?_, ?_⟩ <;> intros <;> first | rfl | linarith | norm_num
  · norm_num
  · rw [abs_of_pos hpos]
    split_ifs <;> refine ⟨?_, ?_, ?_, ?_⟩ <;> intros <;> first | rfl | linarith | norm_num

/-- C6: on an axis the handle controls, the clamped per-axis scale factor
is never zero; a raw factor of magnitude below 0.001 is replaced by 0.001
with its sign preserved (a zero raw factor becomes +0.001 via
`Math.sign(scale || 1)`); larger factors pass through unchanged; and a
drag that crosses the anchor (`dSize < -initialSize`) yields a negative
factor — a mirror, not an error. -/
theorem C6_scale_factor_never_zero (dirC initialSize d : ℚ)
    (hdir : dirC ≠ 0) (hsize : 0 < initialSize) :
    clampScale (rawScale dirC initialSize d) ≠ 0 ∧
    (1 / 1000 ≤ |(initialSize + d) / initialSize| →
      clampScale (rawScale dirC initialSize d) = (initialSize + d) / initialSize) ∧
    (|(initialSize + d) / initialSize| < 1 / 1000 →
      clampScale (rawScale dirC initialSize d)
        = if (initialSize + d) / initialSize < 0 then -(1 / 1000) else 1 / 1000) ∧
    (d < -initialSize → clampScale (rawScale dirC initialSize d) < 0) := by
  have hraw : rawScale dirC initialSize d = (initialSize + d) / initialSize := by
    simp [rawScale, hdir]
  rw [hraw]
  obtain ⟨h1, h2, h3, h4⟩ := clampScale_spec ((initialSize + d) / initialSize)
  exact ⟨h1, h2, h3, fun hc => h4 (div_neg_of_neg_of_pos (by linarith) hsize)⟩

/-- Witness for C6 at the mirror drag of the counterexample scene:
`initialSize = 2`, `dSize = -4`, raw factor `-1`. -/
theorem C6_scale_factor_never_zero_witness :
    ((1 : ℚ) ≠ 0 ∧ (0 : ℚ) < 2 ∧ (-4 : ℚ) < -2) ∧
    clampScale (rawScale 1 2 (-4)) ≠ 0 ∧ clampScale (rawScale 1 2 (-4)) < 0 := by
  have h := C6_scale_factor_never_zero 1 2 (-4) (by norm_num) (by norm_num)
  exact ⟨⟨by norm_num, by norm_num, by norm_num⟩, h.1, h.2.2.2 (by norm_num)⟩


/-- C10: one `handleDrag` frame only writes position and scale: it keeps
every object's rotation exactly as it was at drag start, and leaves every
object without a captured initial state (i.e. not selected) completely
untouched. -/
theorem C10_drag_touches_only_position_scale (initStates : List InitState)
    (dir delta : Vec3) (snapValue : ℚ) (bounds : Vec3 × Vec3) (scene : List SceneObj) :
    (handleDragScene initStates dir delta snapValue bounds scene).length = scene.length ∧
    ∀ (i : ℕ) (h1 : i < scene.length)
      (h2 : i < (handleDragScene initStates dir delta snapValue bounds scene).length),
      ((handleDragScene initStates dir delta snapValue bounds scene).get ⟨i, h2⟩).rotation
          = (scene.get ⟨i, h1⟩).rotation ∧
      ((handleDragScene initStates dir delta snapValue bounds scene).get ⟨i, h2⟩).geom
          = (scene.get ⟨i, h1⟩).geom ∧
      ((∀ s ∈ initStates, s.oid ≠ (scene.get ⟨i, h1⟩).oid) →
        (handleDragScene initStates dir delta snapValue bounds scene).get ⟨i, h2⟩
          = scene.get ⟨i, h1⟩) := by
  refine ⟨by simp [handleDragScene], ?_⟩
  intro i h1 h2
  have hget : (handleDragScene initStates dir delta snapValue bounds scene).get ⟨i, h2⟩
      = (match initStates.find? (fun s => s.oid == (scene.get ⟨i, h1⟩).oid) with
         | some s =>
             { scene.get ⟨i, h1⟩ with
               scale := vhad s.scale
                 (dragScales dir (vsub bounds.2 bounds.1) (snapDelta snapValue delta)),
               position := vadd (anchorOf dir bounds.1 bounds.2)
                 (vhad (vsub s.position (anchorOf dir bounds.1 bounds.2))
                   (dragScales dir (vsub bounds.2 bounds.1) (snapDelta snapValue delta))) }
         | none => scene.get ⟨i, h1⟩) := by
    simp [handleDragScene, List.get_map]
  rw [hget]
  rcases hfind : initStates.find? (fun s => s.oid == (scene.get ⟨i, h1⟩).oid) with _ | s <;>
    rw [hfind]
  · exact ⟨rfl, rfl, fun _ => rfl⟩
  · refine ⟨rfl, rfl, fun hnone => ?_⟩
    exfalso
    have hmem := List.find?_some hfind
    have hsmem := List.mem_of_find?_eq_some hfind
    rw [beq_iff_eq] at hmem
    exact hnone s hsmem hmem

/-- Witness for C10: a concrete empty-selection frame on a one-object
scene leaves the object untouched. -/
theorem C10_drag_touches_only_position_scale_witness :
    (0 < [testCube].length ∧
      0 < (handleDragScene [] ⟨1, -1, 0⟩ ⟨1, 0, 0⟩ 0 (⟨0, 0, 0⟩, ⟨2, 2, 2⟩)
            [testCube]).length) ∧
    ((handleDragScene [] ⟨1, -1, 0⟩ ⟨1, 0, 0⟩ 0 (⟨0, 0, 0⟩, ⟨2, 2, 2⟩)
          [testCube]).get ⟨0, by norm_num [handleDragScene]⟩).rotation
        = ([testCube].get ⟨0, by norm_num⟩).rotation ∧
    (handleDragScene [] ⟨1, -1, 0⟩ ⟨1, 0, 0⟩ 0 (⟨0, 0, 0⟩, ⟨2, 2, 2⟩)
          [testCube]).get ⟨0, by norm_num [handleDragScene]⟩
        = [testCube].get ⟨0, by norm_num⟩ := by
  have h := (C10_drag_touches_only_position_scale [] ⟨1, -1, 0⟩ ⟨1, 0, 0⟩ 0
    (⟨0, 0, 0⟩, ⟨2, 2, 2⟩) [testCube]).2 0 (by norm_num) (by norm_num [handleDragScene])
  exact ⟨⟨by norm_num, by norm_num [handleDragScene]⟩, h.1, h.2.2 (by simp)⟩

lemma axisGet_vadd (a b : Vec3) (ax : Axis) :
    axisGet (vadd a b) ax = axisGet a ax + axisGet b ax := by
  cases ax <;> rfl

lemma axisGet_axisSet (v : Vec3) (ax : Axis) (q : ℚ) :
    axisGet (axisSet v ax q) ax = q := by
  cases ax <;> rfl

/-- Changing only the position leaves the corner offsets unchanged. -/
lemma cornerOffsets_position (o : SceneObj) (p : Vec3) :
    cornerOffsets { o with position := p } = cornerOffsets o := rfl

/-- Moving an object along one axis moves its box center along that axis
to the written coordinate plus the center-to-position offset. -/
lemma boxCenterA_axisSet (o : SceneObj) (ax : Axis) (q : ℚ) :
    boxCenterA { o with position := axisSet o.position ax q } ax
      = q + (boxCenterA o ax - axisGet o.position ax) := by
  unfold boxCenterA boxMinA boxMaxA worldBox
  rw [cornerOffsets_position]
  simp only [axisGet_vadd, axisGet_axisSet]
  ring

/-- Center-aligning one object puts its box center exactly on the
target. -/
lemma alignObj_center (t : ℚ) (ax : Axis) (o : SceneObj) :
    boxCenterA (alignObj t ax AlignMode.acenter o) ax = t := by
  unfold alignObj
  rw [boxCenterA_axisSet]
  ring

lemma foldl_min_le_init (l : List ℚ) : ∀ a : ℚ, l.foldl min a ≤ a := by
  induction l with
  | nil => intro a; exact le_refl a
  | cons x t ih => intro a; exact le_trans (ih (min a x)) (min_le_left a x)

lemma foldl_min_le_mem (l : List ℚ) : ∀ (a : ℚ) (x : ℚ), x ∈ l → l.foldl min a ≤ x := by
  induction l with
  | nil => intro a x hx; simp at hx
  | cons y t ih =>
      intro a x hx
      rcases List.mem_cons.mp hx with rfl | hx
      · exact le_trans (foldl_min_le_init t (min a x)) (min_le_right a x)
      · exact ih (min a y) x hx

lemma foldl_min_attained (l : List ℚ) : ∀ a : ℚ, l.foldl min a = a ∨ l.foldl min a ∈ l := by
  induction l with
  | nil => intro a; exact Or.inl rfl
  | cons x t ih =>
      intro a
      rcases ih (min a x) with h | h
      · rcases min_choice a x with hm | hm
        · exact Or.inl (by rw [List.foldl_cons, h, hm])
        · exact Or.inr (by rw [List.foldl_cons, h, hm]; exact List.mem_cons_self x t)
      · exact Or.inr (List.mem_cons_of_mem x h)

lemma foldl_max_init_le (l : List ℚ) : ∀ a : ℚ, a ≤ l.foldl max a := by
  induction l with
  | nil => intro a; exact le_refl a
  | cons x t ih => intro a; exact le_trans (le_max_left a x) (ih (max a x))

lemma foldl_max_mem_le (l : List ℚ) : ∀ (a : ℚ) (x : ℚ), x ∈ l → x ≤ l.foldl max a := by
  induction l with
  | nil => intro a x hx; simp at hx
  | cons y t ih =>
      intro a x hx
      rcases List.mem_cons.mp hx with rfl | hx
      · exact le_trans (le_max_right a x) (foldl_max_init_le t (max a x))
      · exact ih (max a y) x hx

lemma foldl_max_attained (l : List ℚ) : ∀ a : ℚ, l.foldl max a = a ∨ l.foldl max a ∈ l := by
  induction l with
  | nil => intro a; exact Or.inl rfl
  | cons x t ih =>
      intro a
      rcases ih (max a x) with h | h
      · rcases max_choice a x with hm | hm
        · exact Or.inl (by rw [List.foldl_cons, h, hm])
        · exact Or.inr (by rw [List.foldl_cons, h, hm]; exact List.mem_cons_self x t)
      · exact Or.inr (List.mem_cons_of_mem x h)

/-- C7: the alignment target is the minimum of the box minimums in `min`
mode (a lower bound attained on the selection), the maximum of the box
maximums in `max` mode, and the unweighted mean of the box centers in
`center` mode; and applying center alignment moves every selected
object's box center along the axis exactly onto that mean. -/
theorem C7_alignment_targets (objs : List SceneObj) (ax : Axis) (hne : objs ≠ []) :
    ((∀ o ∈ objs, calculateAlignmentTarget objs ax AlignMode.amin ≤ boxMinA o ax) ∧
      (∃ o ∈ objs, calculateAlignmentTarget objs ax AlignMode.amin = boxMinA o ax)) ∧
    ((∀ o ∈ objs, boxMaxA o ax ≤ calculateAlignmentTarget objs ax AlignMode.amax) ∧
      (∃ o ∈ objs, calculateAlignmentTarget objs ax AlignMode.amax = boxMaxA o ax)) ∧
    calculateAlignmentTarget objs ax AlignMode.acenter
        = ((objs.map fun o => boxCenterA o ax).sum) / objs.length ∧
    (∀ o ∈ performAlignment objs ax AlignMode.acenter,
      boxCenterA o ax = ((objs.map fun o2 => boxCenterA o2 ax).sum) / objs.length) := by
  obtain ⟨o, rest, rfl⟩ : ∃ o rest, objs = o :: rest := by
    cases objs with
    | nil => exact absurd rfl hne
    | cons o rest => exact ⟨o, rest, rfl⟩
  have hminfold : calculateAlignmentTarget (o :: rest) ax AlignMode.amin
      = ((rest.map fun o2 => boxMinA o2 ax).foldl min (boxMinA o ax)) := by
    unfold calculateAlignmentTarget
    rw [List.foldl_map]
  have hmaxfold : calculateAlignmentTarget (o :: rest) ax AlignMode.amax
      = ((rest.map fun o2 => boxMaxA o2 ax).foldl max (boxMaxA o ax)) := by
    unfold calculateAlignmentTarget
    rw [List.foldl_map]
  refine ⟨⟨?_, ?_⟩, ⟨?_, ?_⟩, rfl, ?_⟩
  · intro o2 h2
    rw [hminfold]
    rcases List.mem_cons.mp h2 with rfl | h2
    · exact foldl_min_le_init _ _
    · exact foldl_min_le_mem _ _ _ (List.mem_map_of_mem _ h2)
  · rw [hminfold]
    rcases foldl_min_attained (rest.map fun o2 => boxMinA o2 ax) (boxMinA o ax) with h | h
    · exact ⟨o, List.mem_cons_self o rest, h⟩
    · obtain ⟨o2, h2, he⟩ := List.mem_map.mp h
      exact ⟨o2, List.mem_cons_of_mem o h2, he.symm⟩
  · intro o2 h2
    rw [hmaxfold]
    rcases List.mem_cons.mp h2 with rfl | h2
    · exact foldl_max_init_le _ _
    · exact foldl_max_mem_le _ _ _ (List.mem_map_of_mem _ h2)
  · rw [hmaxfold]
    rcases foldl_max_attained (rest.map fun o2 => boxMaxA o2 ax) (boxMaxA o ax) with h | h
    · exact ⟨o, List.mem_cons_self o rest, h⟩
    · obtain ⟨o2, h2, he⟩ := List.mem_map.mp h
      exact ⟨o2, List.mem_cons_of_mem o h2, he.symm⟩
  · intro o2 h2
    obtain ⟨o3, _, rfl⟩ := List.mem_map.mp h2
    rw [alignObj_center]
    rfl

lemma boxCenterA_alignCubeA : boxCenterA alignCubeA Axis.x = 2 := by
  norm_num [boxCenterA, boxMinA, boxMaxA, worldBox, cornerOffsets, corners, vecListMin,
    vecListMax, vmin, vmax, vhad, vadd, quatApply, qid, axisGet, alignCubeA, testCube,
    min_def, max_def]

lemma boxCenterA_alignCubeB : boxCenterA alignCubeB Axis.x = 8 := by
  norm_num [boxCenterA, boxMinA, boxMaxA, worldBox, cornerOffsets, corners, vecListMin,
    vecListMax, vmin, vmax, vhad, vadd, quatApply, qid, axisGet, alignCubeB, testCube,
    min_def, max_def]

/-- Witness for C7: centers 2 and 8 both move to 5 under center
alignment along X. -/
theorem C7_alignment_targets_witness :
    (([alignCubeA, alignCubeB] : List SceneObj) ≠ [] ∧
      boxCenterA alignCubeA Axis.x = 2 ∧ boxCenterA alignCubeB Axis.x = 8) ∧
    ∀ o ∈ performAlignment [alignCubeA, alignCubeB] Axis.x AlignMode.acenter,
      boxCenterA o Axis.x = 5 := by
  have hne : ([alignCubeA, alignCubeB] : List SceneObj) ≠ [] := by simp
  refine ⟨⟨hne, boxCenterA_alignCubeA, boxCenterA_alignCubeB⟩, fun o ho => ?_⟩
  rw [(C7_alignment_targets [alignCubeA, alignCubeB] Axis.x hne).2.2.2 o ho]
  rw [List.map_cons, List.map_cons, List.map_nil, boxCenterA_alignCubeA,
    boxCenterA_alignCubeB]
  norm_num

/-- C8 (amended): a box-select gesture is a non-event exactly when BOTH
pixel extents are under the 5-pixel threshold (the code tests
`maxX - minX < 5 && maxY - minY < 5`); in that case the selection set is
returned unchanged. -/
theorem C8_box_select_degenerate (selected : List ℕ) (objs : List (ℕ × ℚ × ℚ))
    (start fin : ℚ × ℚ)
    (hw : max start.1 fin.1 - min start.1 fin.1 < 5)
    (hh : max start.2 fin.2 - min start.2 fin.2 < 5) :
    boxSelectUp selected objs start fin = selected := by
  unfold boxSelectUp
  rw [if_pos ⟨hw, hh⟩]

/-- Witness for C8: the spec's `(2,2)` click leaves an empty selection
empty even with an object projecting inside the rectangle. -/
theorem C8_box_select_degenerate_witness :
    (max (0 : ℚ) 2 - min (0 : ℚ) 2 < 5 ∧ max (0 : ℚ) 2 - min (0 : ℚ) 2 < 5) ∧
    boxSelectUp [] [(7, 1, 1)] (0, 0) (2, 2) = [] :=
  ⟨⟨by norm_num, by norm_num⟩,
   C8_box_select_degenerate [] [(7, 1, 1)] (0, 0) (2, 2) (by norm_num) (by norm_num)⟩

/-- C8 counterexample: a 2-by-100 pixel rectangle has width below the
threshold, yet the gesture is NOT a non-event — an unselected object
projecting inside it is added to the selection. -/
theorem C8_counterexample_thin_tall_rect_selects :
    max (0 : ℚ) 2 - min (0 : ℚ) 2 < 5 ∧
    boxSelectUp [] [(7, 1, 50)] (0, 0) (2, 100) = [7] := by
  constructor
  · norm_num
  · norm_num [boxSelectUp, min_def, max_def, List.contains]

/-- C9: a pointer-down in the awaiting-target state whose hit object is
the stored source object is rejected outright: the scene, the history and
the tool state (still active, still step 1, source retained) are all
unchanged. -/
theorem C9_self_snap_rejected (fs : FaceSnapState) (h : Hit) (st : GlobalState)
    (src : SourceSel) (o : SceneObj)
    (hactive : fs.isActive = true) (hstep : fs.step = 1)
    (hsrc : fs.source = some src) (hobj : h.object = some o)
    (hself : o.oid = src.oid) :
    faceSnapPointerDown fs (some h) st = (fs, st) := by
  simp [faceSnapPointerDown, hactive, hstep, hsrc, hobj, hself]

/-- Witness for C9 at a concrete active step-1 state and a self hit. -/
theorem C9_self_snap_rejected_witness :
    ((FaceSnapState.mk true 1 (some ⟨1, ⟨0, 1, 0⟩, ⟨0, 5, 0⟩⟩)).isActive = true ∧
      (FaceSnapState.mk true 1 (some ⟨1, ⟨0, 1, 0⟩, ⟨0, 5, 0⟩⟩)).step = 1 ∧
      testCube.oid = 1) ∧
    faceSnapPointerDown (FaceSnapState.mk true 1 (some ⟨1, ⟨0, 1, 0⟩, ⟨0, 5, 0⟩⟩))
        (some (Hit.mk (some testCube) ⟨0, 1, 0⟩ ⟨0, 1, 0⟩ ⟨0, 0, 0⟩)) histSeed
      = (FaceSnapState.mk true 1 (some ⟨1, ⟨0, 1, 0⟩, ⟨0, 5, 0⟩⟩), histSeed) :=
  ⟨⟨rfl, rfl, rfl⟩,
   C9_self_snap_rejected _ _ histSeed ⟨1, ⟨0, 1, 0⟩, ⟨0, 5, 0⟩⟩ testCube rfl rfl rfl rfl rfl⟩

/-- Whatever the store looked like, the snapshot `saveState` takes ends
up as the last history entry (capacity at least 1). -/
lemma saveState_getLast (st : GlobalState) (hcap : 1 ≤ st.maxHistorySize) :
    (saveState st).history.getLast? = some (snapPure st.objects) := by
  unfold saveState
  dsimp only
  split
  · next hover =>
      have hk : 1 ≤ (st.history.take (st.historyIndex + 1).toNat).length := by
        simp only [List.length_append, List.length_singleton] at hover
        omega
      rw [List.drop_append_of_le_length hk]
      exact List.getLast?_concat _
  · exact List.getLast?_concat _

/-- C4 (amended): the resize drag and the alignment apply snapshot the
history BEFORE mutating — the snapshot taken by the commit records the
pre-operation scene; the face-snap target click instead mutates first and
snapshots AFTER — its snapshot records the post-snap scene (for both an
object-face target and a ground target). -/
theorem C4_snapshot_ordering (st : GlobalState) (hcap : 1 ≤ st.maxHistorySize) :
    (∀ (sel : List ℕ) (dir delta : Vec3) (snapValue : ℚ),
        (resizeCommit sel dir delta snapValue st).history.getLast?
          = some (snapPure st.objects)) ∧
    (∀ (sel : List ℕ) (ax : Axis) (mode : AlignMode),
        (alignApply sel ax mode st).history.getLast? = some (snapPure st.objects)) ∧
    (∀ (fs : FaceSnapState) (h : Hit) (src : SourceSel),
        fs.isActive = true → fs.step = 1 → fs.source = some src → h.object = none →
        ((faceSnapPointerDown fs (some h) st).2).history.getLast?
          = some (snapPure (snapScene src h.point h.normal st.objects))) ∧
    (∀ (fs : FaceSnapState) (h : Hit) (src : SourceSel) (o : SceneObj),
        fs.isActive = true → fs.step = 1 → fs.source = some src → h.object = some o →
        o.oid ≠ src.oid →
        ((faceSnapPointerDown fs (some h) st).2).history.getLast?
          = some (snapPure (snapScene src h.point
              (vecNormalize (quatApply o.rotation h.faceNormal)) st.objects))) := by
  refine ⟨?_, ?_, ?_, ?_⟩
  · intro sel dir delta snapValue
    unfold resizeCommit
    dsimp only
    split
    · exact saveState_getLast st hcap
    · exact saveState_getLast st hcap
  · intro sel ax mode
    exact saveState_getLast st hcap
  · intro fs h src hactive hstep hsrc hobj
    have : (faceSnapPointerDown fs (some h) st).2
        = saveState { st with objects := snapScene src h.point h.normal st.objects } := by
      simp [faceSnapPointerDown, hactive, hstep, hsrc, hobj]
    rw [this]
    exact saveState_getLast _ hcap
  · intro fs h src o hactive hstep hsrc hobj hne
    have : (faceSnapPointerDown fs (some h) st).2
        = saveState
            { st with
              objects :=
                snapScene src h.point
                  (vecNormalize (quatApply o.rotation h.faceNormal)) st.objects } := by
      simp [faceSnapPointerDown, hactive, hstep, hsrc, hobj, hne]
    rw [this]
    exact saveState_getLast _ hcap

lemma performSnap_testCube :
    performSnap testCube ⟨0, 1, 0⟩ ⟨0, 5, 0⟩ ⟨0, 0, 0⟩ ⟨0, 1, 0⟩
      = { testCube with rotation := ⟨0, 0, 1, 0⟩, position := ⟨0, 2, 0⟩ } := by
  norm_num [performSnap, snapQuat_up_up, quatApply, quatMul, vsub, testCube, qid]



/-- C4 counterexample: on a face-snap target click the snapshot left at
the end of the history is NOT the pre-operation scene — `performSnap`
runs first and `saveState()` records the already-mutated transforms. -/
theorem C4_counterexample_faceSnap_snapshots_after_mutation :
    (faceSnapPointerDown ⟨true, 1, some topFaceSource⟩ (some groundHit)
      histSeed).2.history.getLast? ≠ some (snapPure histSeed.objects) := by
  have hstep : (faceSnapPointerDown ⟨true, 1, some topFaceSource⟩ (some groundHit)
      histSeed).2
      = saveState
          { histSeed with
            objects := snapScene topFaceSource ⟨0, 0, 0⟩ ⟨0, 1, 0⟩ histSeed.objects } := by
    simp [faceSnapPointerDown, groundHit]
  rw [hstep, saveState_getLast _ (by norm_num [histSeed])]
  have hscene : snapScene topFaceSource ⟨0, 0, 0⟩ ⟨0, 1, 0⟩ histSeed.objects
      = [{ testCube with rotation := ⟨0, 0, 1, 0⟩, position := ⟨0, 2, 0⟩ }] := by
    have : snapScene topFaceSource ⟨0, 0, 0⟩ ⟨0, 1, 0⟩ histSeed.objects
        = [performSnap testCube topFaceSource.normal topFaceSource.point
            ⟨0, 0, 0⟩ ⟨0, 1, 0⟩] := by
      simp [snapScene, histSeed, topFaceSource, testCube]
    rw [this]
    exact congrArg (fun o => [o]) performSnap_testCube
  rw [hscene]
  intro hcontra
  simp only [Option.some.injEq, histSeed] at hcontra
  have := congrArg (fun s => s.objects.map (fun d => d.position)) hcontra
  simp only [snapPure, List.map_map, List.map_cons, List.map_nil, Function.comp,
    serializeObject, testCube] at this
  norm_num at this

/-- Witness for C4 at a concrete store, selection and face-snap click. -/
theorem C4_snapshot_ordering_witness :
    (1 ≤ histSeed.maxHistorySize ∧
      (FaceSnapState.mk true 1 (some topFaceSource)).isActive = true ∧
      groundHit.object = none) ∧
    ((alignApply [1] Axis.x AlignMode.acenter histSeed).history.getLast?
        = some (snapPure histSeed.objects) ∧
     (resizeCommit [1] ⟨1, -1, 0⟩ ⟨1, 0, 0⟩ 0 histSeed).history.getLast?
        = some (snapPure histSeed.objects) ∧
     ((faceSnapPointerDown (FaceSnapState.mk true 1 (some topFaceSource))
          (some groundHit) histSeed).2).history.getLast?
        = some (snapPure (snapScene topFaceSource groundHit.point groundHit.normal
            histSeed.objects))) := by
  have h := C4_snapshot_ordering histSeed (by norm_num [histSeed])
  exact ⟨⟨by norm_num [histSeed], rfl, rfl⟩,
    h.2.1 [1] Axis.x AlignMode.acenter,
    h.1 [1] ⟨1, -1, 0⟩ ⟨1, 0, 0⟩ 0,
    h.2.2.1 (FaceSnapState.mk true 1 (some topFaceSource)) groundHit topFaceSource
      rfl rfl rfl rfl⟩

end ImagineIt
